import Mathlib

/-!
Shallow embedding of the data-alignment and stage-lifecycle layer of the
Minerva SETR-PUP pipeline notebook
(`docs/notebooks/4.minerva_setr_pup_pipeline.ipynb`):

* the `Padding` transform (reflective padding to a target spatial size,
  channel-first output), built on `np.pad(..., mode="reflect")`;
* the `F3DataModule` Lightning data module (`setup` and the four
  dataloader accessors).

Array entries are modelled as `Int` samples; the dtype conversion performed
by `torch.from_numpy(...).float()` only changes the dtype, never which
source entry lands at which output position, so it is modelled as the
identity on the carried samples.
-/

namespace Minerva

/-- A 2-D numpy array of shape `(h, w)`.  `data i j` is the entry at row `i`,
column `j`; indices outside the shape are unobservable junk. -/
structure Arr2 where
  h : Nat
  w : Nat
  data : Nat → Nat → Int

/-- A 3-D channel-last numpy array of shape `(h, w, c)`. -/
structure Arr3 where
  h : Nat
  w : Nat
  c : Nat
  data : Nat → Nat → Nat → Int

/-- A numpy array of the dimensionalities the notebook's transform can
receive: 0-D scalar, 1-D vector, 2-D single-channel image, or 3-D
channel-last image. -/
inductive NpArray where
  | scalar (v : Int)
  | vec (n : Nat) (data : Nat → Int)
  | mat (a : Arr2)
  | cube (a : Arr3)

/-- The channel-first tensor returned by `Padding.__call__`: shape
`(c, h, w)` with `data c i j` the entry at channel `c`, row `i`, column
`j`. -/
structure Tensor3 where
  c : Nat
  h : Nat
  w : Nat
  data : Nat → Nat → Nat → Int

/-- Errors raised inside `Padding.__call__`:

* `shapeError` — the tuple unpacking `h, w = x.shape[:2]` raises
  `ValueError` when the input has fewer than 2 dimensions (the spec's
  `ShapeError`);
* `emptyAxis` — `np.pad` raises `ValueError` (\"can't extend empty axis
  using modes other than 'constant' or 'empty'\") when an axis of size 0
  must be extended. -/
inductive PadError where
  | shapeError
  | emptyAxis
  deriving DecidableEq, Repr

/-- Index map of numpy reflective padding (`mode="reflect"`, even reflect
type) on one axis of length `n`, restricted to right-only padding as used
by the notebook (`pad_width = (0, pad)`).  Output index `k` reads source
index `reflectIdx n k`:

* for `n ≥ 2`, numpy pads by repeated reflection about the edges, which is
  the triangular wave of period `2*(n-1)`;
* for `n = 1`, numpy's documented legacy behaviour replicates the single
  entry (edge padding) instead of raising;
* `n = 0` never reaches this map (`np.pad` raises first, see
  `npPadReflect2`). -/
def reflectIdx (n k : Nat) : Nat :=
  if n ≤ 1 then 0
  else
    let m := 2 * (n - 1)
    let r := k % m
    if r ≤ n - 1 then r else m - r

/-- `np.pad(x, ((0, ph), (0, pw)), mode="reflect")` on a 2-D array.
numpy raises iff some axis of size 0 must actually be extended; otherwise
the result has shape `(h + ph, w + pw)` and reads back through
`reflectIdx` on each axis. -/
def npPadReflect2 (x : Arr2) (ph pw : Nat) : Except PadError Arr2 :=
  if (ph ≠ 0 ∧ x.h = 0) ∨ (pw ≠ 0 ∧ x.w = 0) then
    .error .emptyAxis
  else
    .ok ⟨x.h + ph, x.w + pw,
      fun i j => x.data (reflectIdx x.h i) (reflectIdx x.w j)⟩

/-- `np.pad(x, ((0, ph), (0, pw), (0, 0)), mode="reflect")` on a 3-D
array: only the two spatial axes are padded, the channel axis is
untouched (its pad width is 0, so an empty channel axis is legal). -/
def npPadReflect3 (x : Arr3) (ph pw : Nat) : Except PadError Arr3 :=
  if (ph ≠ 0 ∧ x.h = 0) ∨ (pw ≠ 0 ∧ x.w = 0) then
    .error .emptyAxis
  else
    .ok ⟨x.h + ph, x.w + pw, x.c,
      fun i j k => x.data (reflectIdx x.h i) (reflectIdx x.w j) k⟩

/-- The notebook's `Padding(_Transform)` object: carries the target
spatial size. -/
structure Padding where
  target_h_size : Nat
  target_w_size : Nat
  deriving DecidableEq, Repr

/-- `Padding.__call__(x)`:

* `h, w = x.shape[:2]` — raises for 0-D/1-D input (`shapeError`);
* `pad_h = max(0, target_h_size - h)`, `pad_w = max(0, target_w_size - w)`
  — truncated `Nat` subtraction is exactly `max(0, ·)` here;
* 2-D branch: reflect-pad both axes, `np.expand_dims(..., axis=2)` to
  `(H, W, 1)`, convert to float, `np.transpose(..., (2, 0, 1))` to
  `(1, H, W)`;
* 3-D branch: reflect-pad the two spatial axes, convert to float,
  transpose `(H, W, C)` to `(C, H, W)`. -/
def Padding.call (p : Padding) (x : NpArray) : Except PadError Tensor3 :=
  match x with
  | .scalar _ => .error .shapeError
  | .vec _ _ => .error .shapeError
  | .mat a =>
    match npPadReflect2 a (p.target_h_size - a.h) (p.target_w_size - a.w) with
    | .error e => .error e
    | .ok padded => .ok ⟨1, padded.h, padded.w, fun _ i j => padded.data i j⟩
  | .cube a =>
    match npPadReflect3 a (p.target_h_size - a.h) (p.target_w_size - a.w) with
    | .error e => .error e
    | .ok padded => .ok ⟨padded.c, padded.h, padded.w, fun c i j => padded.data i j c⟩

/-- Shape `(c, h, w)` of the tensor a `Padding.__call__` run returned, or
`none` if it raised. -/
def tensorShape? : Except PadError Tensor3 → Option (Nat × Nat × Nat)
  | .ok t => some (t.c, t.h, t.w)
  | .error _ => none

/-- The error a `Padding.__call__` run raised, or `none` if it returned a
tensor. -/
def padResultErr? : Except PadError Tensor3 → Option PadError
  | .ok _ => none
  | .error e => some e

theorem reflectIdx_of_lt {n k : Nat} (h : k < n) : reflectIdx n k = k := by
  unfold reflectIdx
  by_cases h1 : n ≤ 1
  · have hn : n = 1 := le_antisymm h1 (Nat.pos_of_ne_zero (by omega))
    have hk : k = 0 := by omega
    simp [h1, hk]
  · have hm : k % (2 * (n - 1)) = k := Nat.mod_eq_of_lt (by omega)
    simp only [if_neg h1, hm]
    have : k ≤ n - 1 := by omega
    simp [this]

/-- When no empty spatial axis needs extending, the 2-D branch of the
transform returns the reflect-padded, channel-expanded, transposed
tensor. -/
theorem call_mat_ok (p : Padding) (a : Arr2)
    (hc : ¬ ((p.target_h_size - a.h ≠ 0 ∧ a.h = 0) ∨ (p.target_w_size - a.w ≠ 0 ∧ a.w = 0))) :
    p.call (.mat a) =
      .ok ⟨1, a.h + (p.target_h_size - a.h), a.w + (p.target_w_size - a.w),
        fun _ i j => a.data (reflectIdx a.h i) (reflectIdx a.w j)⟩ := by
  simp only [Padding.call, npPadReflect2, if_neg hc]

/-- When an empty spatial axis must be extended, the 2-D branch raises. -/
theorem call_mat_err (p : Padding) (a : Arr2)
    (hc : (p.target_h_size - a.h ≠ 0 ∧ a.h = 0) ∨ (p.target_w_size - a.w ≠ 0 ∧ a.w = 0)) :
    p.call (.mat a) = .error .emptyAxis := by
  simp only [Padding.call, npPadReflect2, if_pos hc]

/-- When no empty spatial axis needs extending, the 3-D branch of the
transform returns the reflect-padded, transposed tensor. -/
theorem call_cube_ok (p : Padding) (a : Arr3)
    (hc : ¬ ((p.target_h_size - a.h ≠ 0 ∧ a.h = 0) ∨ (p.target_w_size - a.w ≠ 0 ∧ a.w = 0))) :
    p.call (.cube a) =
      .ok ⟨a.c, a.h + (p.target_h_size - a.h), a.w + (p.target_w_size - a.w),
        fun c i j => a.data (reflectIdx a.h i) (reflectIdx a.w j) c⟩ := by
  simp only [Padding.call, npPadReflect3, if_neg hc]

/-- When an empty spatial axis must be extended, the 3-D branch raises. -/
theorem call_cube_err (p : Padding) (a : Arr3)
    (hc : (p.target_h_size - a.h ≠ 0 ∧ a.h = 0) ∨ (p.target_w_size - a.w ≠ 0 ∧ a.w = 0)) :
    p.call (.cube a) = .error .emptyAxis := by
  simp only [Padding.call, npPadReflect3, if_pos hc]

/-- A filesystem path, as the sequence of components joined by
`pathlib.Path`'s `/` operator. -/
abbrev FsPath := List String

/-- `p / s` on `pathlib.Path` values. -/
def pathJoin (p : FsPath) (s : String) : FsPath := p ++ [s]

/-- A `SupervisedReconstructionDataset` as the notebook builds it: the
reader pair `[TiffReader(img_root), PNGReader(label_root)]` plus the
shared transform.  The readers are external collaborators identified by
their root directories. -/
structure SupervisedReconstructionDataset where
  imgReaderRoot : FsPath
  labelReaderRoot : FsPath
  transforms : Option Padding
  deriving DecidableEq, Repr

/-- The error `setup` raises on an unrecognized stage:
`raise ValueError(f"Invalid stage: {stage}")` (the spec's
`ConfigurationError`). -/
inductive SetupError where
  | invalidStage (stage : Option String)
  deriving DecidableEq, Repr

/-- The error a dataloader accessor raises when its dataset was never
built: the `KeyError` of `self.datasets["..."]` on a missing key (the
spec's `StateError`). -/
inductive LoaderError where
  | keyMissing (k : String)
  deriving DecidableEq, Repr

/-- A `torch.utils.data.DataLoader` as constructed by the accessors:
the wrapped dataset plus the `batch_size`, `num_workers` and `shuffle`
arguments it was given. -/
structure DataLoader where
  dataset : SupervisedReconstructionDataset
  batch_size : Nat
  num_workers : Nat
  shuffle : Bool
  deriving DecidableEq, Repr

/-- The `F3DataModule` state: the configuration fixed by `__init__` plus
the mutable `self.datasets` dict, modelled as a map from string keys to
an optional dataset (`none` = key absent). -/
structure F3DataModule where
  train_path : FsPath
  annotations_path : FsPath
  transforms : Option Padding
  batch_size : Nat
  num_workers : Nat
  datasets : String → Option SupervisedReconstructionDataset

/-- `F3DataModule.__init__`: stores the configuration, resolves
`num_workers` to `os.cpu_count()` when `None` (`cpu_count` is the host
value at construction time), and starts with an empty `datasets` dict. -/
def F3DataModule.new (train_path annotations_path : FsPath)
    (transforms : Option Padding) (batch_size : Nat) (num_workers : Option Nat)
    (cpu_count : Nat) : F3DataModule :=
  { train_path := train_path
    annotations_path := annotations_path
    transforms := transforms
    batch_size := batch_size
    num_workers := num_workers.getD cpu_count
    datasets := fun _ => none }

/-- `F3DataModule.setup(stage)`.  The branches mutate `self.datasets` by
successive dict assignments (the later assignment is the outer update);
the `else` branch raises before any mutation, so the exceptional result
carries no updated module.  The stage argument defaults to `None` in the
source, hence `Option String`. -/
def F3DataModule.setup (m : F3DataModule) (stage : Option String) :
    Except SetupError F3DataModule :=
  if stage = some "fit" then
    let train_dataset : SupervisedReconstructionDataset :=
      ⟨pathJoin m.train_path "train", pathJoin m.annotations_path "train", m.transforms⟩
    let val_dataset : SupervisedReconstructionDataset :=
      ⟨pathJoin m.train_path "val", pathJoin m.annotations_path "val", m.transforms⟩
    .ok { m with datasets := fun k =>
            if k = "val" then some val_dataset
            else if k = "train" then some train_dataset
            else m.datasets k }
  else if stage = some "test" ∨ stage = some "predict" then
    let test_dataset : SupervisedReconstructionDataset :=
      ⟨pathJoin m.train_path "test", pathJoin m.annotations_path "test", m.transforms⟩
    .ok { m with datasets := fun k =>
            if k = "predict" then some test_dataset
            else if k = "test" then some test_dataset
            else m.datasets k }
  else
    .error (.invalidStage stage)

/-- `F3DataModule.train_dataloader`: wraps `self.datasets["train"]` with
`shuffle=True`. -/
def F3DataModule.train_dataloader (m : F3DataModule) : Except LoaderError DataLoader :=
  match m.datasets "train" with
  | some d => .ok ⟨d, m.batch_size, m.num_workers, true⟩
  | none => .error (.keyMissing "train")

/-- `F3DataModule.val_dataloader`: wraps `self.datasets["val"]` with
`shuffle=False`. -/
def F3DataModule.val_dataloader (m : F3DataModule) : Except LoaderError DataLoader :=
  match m.datasets "val" with
  | some d => .ok ⟨d, m.batch_size, m.num_workers, false⟩
  | none => .error (.keyMissing "val")

/-- `F3DataModule.test_dataloader`: wraps `self.datasets["test"]` with
`shuffle=False`. -/
def F3DataModule.test_dataloader (m : F3DataModule) : Except LoaderError DataLoader :=
  match m.datasets "test" with
  | some d => .ok ⟨d, m.batch_size, m.num_workers, false⟩
  | none => .error (.keyMissing "test")

/-- `F3DataModule.predict_dataloader`: wraps `self.datasets["predict"]`
with `shuffle=False`. -/
def F3DataModule.predict_dataloader (m : F3DataModule) : Except LoaderError DataLoader :=
  match m.datasets "predict" with
  | some d => .ok ⟨d, m.batch_size, m.num_workers, false⟩
  | none => .error (.keyMissing "predict")

/-- Observation helper: the `datasets` entry at key `k` after a `setup`
call that succeeded, or `none` if `setup` raised. -/
def setupDatasets? (m : F3DataModule) (stage : Option String) (k : String) :
    Option (Option SupervisedReconstructionDataset) :=
  match m.setup stage with
  | .ok m2 => some (m2.datasets k)
  | .error _ => none

/-- Observation helper: the module a `setup` call returned, or `none` if
it raised. -/
def setupModule? (m : F3DataModule) (stage : Option String) : Option F3DataModule :=
  match m.setup stage with
  | .ok m2 => some m2
  | .error _ => none

/-- Observation helper: the error a dataloader accessor raised, or `none`
if it returned a loader. -/
def dlErr? : Except LoaderError DataLoader → Option LoaderError
  | .ok _ => none
  | .error e => some e

/-- Observation helper: whether a dataloader accessor returned a loader. -/
def dlOk : Except LoaderError DataLoader → Bool
  | .ok _ => true
  | .error _ => false

/-- Observation helper: the `(shuffle, batch_size, num_workers)` arguments
of the loader an accessor returned, or `none` if it raised. -/
def dlArgs? : Except LoaderError DataLoader → Option (Bool × Nat × Nat)
  | .ok dl => some (dl.shuffle, dl.batch_size, dl.num_workers)
  | .error _ => none

/-- Observation helper: the entry of the returned tensor at channel `c`,
row `i`, column `j`, or `none` if `Padding.__call__` raised. -/
def tensorAt? (r : Except PadError Tensor3) (c i j : Nat) : Option Int :=
  match r with
  | .ok t => some (t.data c i j)
  | .error _ => none

/-- Claim C7 (confirmed): for every input array with fewer than 2
dimensions (0-D or 1-D), `Padding.__call__` fails with the spec's
ShapeError (`h, w = x.shape[:2]` cannot unpack) rather than returning a
tensor. -/
theorem C7_low_dim_fails_shape_error :
    ∀ (p : Padding) (v : Int) (n : Nat) (d : Nat → Int),
      padResultErr? (p.call (.scalar v)) = some .shapeError ∧
      padResultErr? (p.call (.vec n d)) = some .shapeError := by
  intro p v n d
  exact ⟨rfl, rfl⟩

/-- Claim C2 (confirmed): for every 2-D or 3-D channel-last input of
spatial size `(h, w)` with `h ≥ target_h` and `w ≥ target_w`, the
transform never crops: it returns a tensor of spatial size exactly
`(h, w)`. -/
theorem C2_never_crops :
    (∀ (p : Padding) (a : Arr2), p.target_h_size ≤ a.h → p.target_w_size ≤ a.w →
        tensorShape? (p.call (.mat a)) = some (1, a.h, a.w)) ∧
    (∀ (p : Padding) (a : Arr3), p.target_h_size ≤ a.h → p.target_w_size ≤ a.w →
        tensorShape? (p.call (.cube a)) = some (a.c, a.h, a.w)) := by
  constructor
  · intro p a hh hw
    have e1 : p.target_h_size - a.h = 0 := Nat.sub_eq_zero_of_le hh
    have e2 : p.target_w_size - a.w = 0 := Nat.sub_eq_zero_of_le hw
    rw [call_mat_ok p a (by omega)]
    simp only [tensorShape?, e1, e2, Nat.add_zero]
  · intro p a hh hw
    have e1 : p.target_h_size - a.h = 0 := Nat.sub_eq_zero_of_le hh
    have e2 : p.target_w_size - a.w = 0 := Nat.sub_eq_zero_of_le hw
    rw [call_cube_ok p a (by omega)]
    simp only [tensorShape?, e1, e2, Nat.add_zero]

/-- Witness for C2 at a concrete oversized input: a `(5, 6)` grayscale
array under target `(2, 3)` keeps spatial size `(5, 6)`. -/
theorem C2_never_crops_witness :
    tensorShape? ((Padding.mk 2 3).call (.mat ⟨5, 6, fun i j => (i : Int) - j⟩)) =
      some (1, 5, 6) :=
  C2_never_crops.1 ⟨2, 3⟩ ⟨5, 6, fun i j => (i : Int) - j⟩ (by decide) (by decide)

/-- Claim C9 (confirmed): the transform pads only at the high end of each
spatial axis, so whenever it returns, the original content sits unmoved
in the top-left corner: `output[0, i, j] = x[i, j]` for a 2-D input and
`output[c, i, j] = x[i, j, c]` for a 3-D channel-last input, at every
in-range index (dtype conversion modelled as the identity on the carried
samples). -/
theorem C9_content_preserved_top_left :
    (∀ (p : Padding) (a : Arr2) (i j : Nat), i < a.h → j < a.w →
        padResultErr? (p.call (.mat a)) = none →
        tensorAt? (p.call (.mat a)) 0 i j = some (a.data i j)) ∧
    (∀ (p : Padding) (a : Arr3) (c i j : Nat), c < a.c → i < a.h → j < a.w →
        padResultErr? (p.call (.cube a)) = none →
        tensorAt? (p.call (.cube a)) c i j = some (a.data i j c)) := by
  constructor
  · intro p a i j hi hj hok
    by_cases hc : (p.target_h_size - a.h ≠ 0 ∧ a.h = 0) ∨ (p.target_w_size - a.w ≠ 0 ∧ a.w = 0)
    · rw [call_mat_err p a hc] at hok
      exact absurd hok (by simp [padResultErr?])
    · rw [call_mat_ok p a hc]
      simp only [tensorAt?, reflectIdx_of_lt hi, reflectIdx_of_lt hj]
  · intro p a c i j hc2 hi hj hok
    by_cases hc : (p.target_h_size - a.h ≠ 0 ∧ a.h = 0) ∨ (p.target_w_size - a.w ≠ 0 ∧ a.w = 0)
    · rw [call_cube_err p a hc] at hok
      exact absurd hok (by simp [padResultErr?])
    · rw [call_cube_ok p a hc]
      simp only [tensorAt?, reflectIdx_of_lt hi, reflectIdx_of_lt hj]

/-- Witness for C9 at a concrete input: entry `(1, 2)` of a `(4, 5)`
grayscale array under target `(2, 3)` is found unchanged at
`output[0, 1, 2]`. -/
theorem C9_content_preserved_top_left_witness :
    tensorAt? ((Padding.mk 2 3).call (.mat ⟨4, 5, fun i j => (i : Int) * 10 + j⟩)) 0 1 2 =
      some 12 :=
  C9_content_preserved_top_left.1 ⟨2, 3⟩ ⟨4, 5, fun i j => (i : Int) * 10 + j⟩ 1 2
    (by decide) (by decide) rfl

/-- Claim C1 counterexample: a 2-D input of spatial size `(0, 600)`
satisfies `h ≤ 256` and `w ≤ 704`, yet `Padding(256, 704)` raises
(`np.pad` cannot reflect an empty axis) instead of returning a
`(1, 256, 704)` tensor. -/
theorem C1_counterexample_empty_axis :
    padResultErr? ((Padding.mk 256 704).call (.mat ⟨0, 600, fun _ _ => 0⟩)) =
        some .emptyAxis ∧
    tensorShape? ((Padding.mk 256 704).call (.mat ⟨0, 600, fun _ _ => 0⟩)) = none := by
  exact ⟨rfl, rfl⟩

/-- Claim C1 (corrected): for every 2-D or 3-D channel-last input with
nonempty spatial axes and spatial size `(h, w)` with `h ≤ target_h` and
`w ≤ target_w`, the transform returns a tensor of spatial size exactly
`(target_h, target_w)` (channel count 1 for 2-D inputs). -/
theorem C1_pads_to_target :
    (∀ (p : Padding) (a : Arr2), 1 ≤ a.h → a.h ≤ p.target_h_size →
        1 ≤ a.w → a.w ≤ p.target_w_size →
        tensorShape? (p.call (.mat a)) = some (1, p.target_h_size, p.target_w_size)) ∧
    (∀ (p : Padding) (a : Arr3), 1 ≤ a.h → a.h ≤ p.target_h_size →
        1 ≤ a.w → a.w ≤ p.target_w_size →
        tensorShape? (p.call (.cube a)) = some (a.c, p.target_h_size, p.target_w_size)) := by
  constructor
  · intro p a h1 h2 h3 h4
    rw [call_mat_ok p a (by omega)]
    have e1 : a.h + (p.target_h_size - a.h) = p.target_h_size := by omega
    have e2 : a.w + (p.target_w_size - a.w) = p.target_w_size := by omega
    simp only [tensorShape?, e1, e2]
  · intro p a h1 h2 h3 h4
    rw [call_cube_ok p a (by omega)]
    have e1 : a.h + (p.target_h_size - a.h) = p.target_h_size := by omega
    have e2 : a.w + (p.target_w_size - a.w) = p.target_w_size := by omega
    simp only [tensorShape?, e1, e2]

/-- Witness for C1, the spec's scenario: a grayscale `(200, 600)` array
under `Padding(256, 704)` yields output shape `(1, 256, 704)`. -/
theorem C1_pads_to_target_witness :
    tensorShape? ((Padding.mk 256 704).call (.mat ⟨200, 600, fun i j => (i : Int) + j⟩)) =
      some (1, 256, 704) :=
  C1_pads_to_target.1 ⟨256, 704⟩ ⟨200, 600, fun i j => (i : Int) + j⟩
    (by decide) (by decide) (by decide) (by decide)

/-- Claim C10 counterexample: a `(1, 704)` input under target `(256, 704)`
has required pad `256 - 1 = 255 > 0 = 1 - 1`, yet `Padding.__call__`
returns a `(1, 256, 704)` tensor (numpy replicates the singleton axis,
its documented legacy behaviour) instead of raising. -/
theorem C10_counterexample_singleton_row :
    tensorShape? ((Padding.mk 256 704).call (.mat ⟨1, 704, fun _ j => (j : Int)⟩)) =
        some (1, 256, 704) ∧
    padResultErr? ((Padding.mk 256 704).call (.mat ⟨1, 704, fun _ j => (j : Int)⟩)) = none ∧
    1 - 1 < 256 - 1 := by
  exact ⟨rfl, rfl, by decide⟩

/-- Claim C10 (corrected): the transform is still not total on 2-D/3-D
inputs, but the failure boundary is emptiness, not pad amount:
`Padding.__call__` raises exactly when a spatial axis has size 0 and the
target strictly exceeds it; whenever both spatial axes are nonempty it
returns even if the pad exceeds size − 1 (numpy reflects repeatedly, and
replicates a singleton axis) — a `(1, 704)` input under `(256, 704)`
returns a `(1, 256, 704)` tensor, while a `(0, 704)` input raises. -/
theorem C10_fails_only_on_empty_axis :
    (∀ (p : Padding) (a : Arr2),
        padResultErr? (p.call (.mat a)) =
          if (a.h = 0 ∧ a.h < p.target_h_size) ∨ (a.w = 0 ∧ a.w < p.target_w_size)
          then some .emptyAxis else none) ∧
    (∀ (p : Padding) (a : Arr3),
        padResultErr? (p.call (.cube a)) =
          if (a.h = 0 ∧ a.h < p.target_h_size) ∨ (a.w = 0 ∧ a.w < p.target_w_size)
          then some .emptyAxis else none) ∧
    tensorShape? ((Padding.mk 256 704).call (.mat ⟨1, 704, fun _ _ => 0⟩)) =
      some (1, 256, 704) ∧
    padResultErr? ((Padding.mk 256 704).call (.mat ⟨0, 704, fun _ _ => 0⟩)) =
      some .emptyAxis := by
  refine ⟨?_, ?_, rfl, rfl⟩
  · intro p a
    by_cases hc : (p.target_h_size - a.h ≠ 0 ∧ a.h = 0) ∨ (p.target_w_size - a.w ≠ 0 ∧ a.w = 0)
    · rw [call_mat_err p a hc, if_pos (by omega)]
      rfl
    · rw [call_mat_ok p a hc, if_neg (by omega)]
      rfl
  · intro p a
    by_cases hc : (p.target_h_size - a.h ≠ 0 ∧ a.h = 0) ∨ (p.target_w_size - a.w ≠ 0 ∧ a.w = 0)
    · rw [call_cube_err p a hc, if_pos (by omega)]
      rfl
    · rw [call_cube_ok p a hc, if_neg (by omega)]
      rfl

/-- Claim C3 (confirmed): `setup("fit")` on a freshly constructed
`F3DataModule` populates exactly the keys `train` and `val` — with the
train-split and val-split datasets under the configured roots — and
every other key (in particular `test` and `predict`) stays absent. -/
theorem C3_setup_fit_populates_exactly_train_val :
    ∀ (tp ap : FsPath) (tr : Option Padding) (bs : Nat) (nw : Option Nat) (cc : Nat)
      (k : String),
      setupDatasets? (F3DataModule.new tp ap tr bs nw cc) (some "fit") k =
        some (if k = "val" then some ⟨pathJoin tp "val", pathJoin ap "val", tr⟩
              else if k = "train" then some ⟨pathJoin tp "train", pathJoin ap "train", tr⟩
              else none) := by
  intro tp ap tr bs nw cc k
  rfl

/-- Claim C4 (confirmed): `setup("test")` and `setup("predict")` each
build one dataset from the test-split reader pair and store that same
dataset under both the `test` and the `predict` keys (all other keys
untouched), so the two keys alias one dataset. -/
theorem C4_setup_test_predict_alias_one_dataset :
    ∀ (m : F3DataModule) (k : String),
      (setupDatasets? m (some "test") k =
        some (if k = "predict" then
                some ⟨pathJoin m.train_path "test", pathJoin m.annotations_path "test", m.transforms⟩
              else if k = "test" then
                some ⟨pathJoin m.train_path "test", pathJoin m.annotations_path "test", m.transforms⟩
              else m.datasets k)) ∧
      (setupDatasets? m (some "predict") k =
        some (if k = "predict" then
                some ⟨pathJoin m.train_path "test", pathJoin m.annotations_path "test", m.transforms⟩
              else if k = "test" then
                some ⟨pathJoin m.train_path "test", pathJoin m.annotations_path "test", m.transforms⟩
              else m.datasets k)) := by
  intro m k
  exact ⟨rfl, rfl⟩

/-- Claim C5 (confirmed): for every stage outside
`{"fit", "test", "predict"}` — including the default `None` — `setup`
raises the spec's ConfigurationError (`ValueError(f"Invalid stage: ...")`)
and returns no updated module, so the dataset mapping is exactly what it
was before the call. -/
theorem C5_setup_invalid_stage_fails :
    ∀ (m : F3DataModule) (stage : Option String),
      stage ≠ some "fit" → stage ≠ some "test" → stage ≠ some "predict" →
      m.setup stage = .error (.invalidStage stage) := by
  intro m stage h1 h2 h3
  unfold F3DataModule.setup
  rw [if_neg h1, if_neg (by simp [h2, h3])]

/-- Witness for C5: `setup("bogus")` on a fresh module fails with the
invalid-stage error. -/
theorem C5_setup_invalid_stage_fails_witness :
    F3DataModule.setup (F3DataModule.new ["imgs"] ["anns"] none 1 none 4)
        (some "bogus") =
      .error (.invalidStage (some "bogus")) :=
  C5_setup_invalid_stage_fails _ _ (by decide) (by decide) (by decide)

/-- Claim C6 (confirmed): loader accessors called before the `setup` that
builds their dataset fail with the spec's StateError (a `KeyError` on the
`datasets` dict): on a fresh module all four accessors fail, and after
`setup("fit")` the `test_dataloader` accessor still fails while
`train_dataloader` succeeds. -/
theorem C6_loader_before_setup_fails :
    ∀ (tp ap : FsPath) (tr : Option Padding) (bs : Nat) (nw : Option Nat) (cc : Nat),
      (F3DataModule.new tp ap tr bs nw cc).train_dataloader = .error (.keyMissing "train") ∧
      (F3DataModule.new tp ap tr bs nw cc).val_dataloader = .error (.keyMissing "val") ∧
      (F3DataModule.new tp ap tr bs nw cc).test_dataloader = .error (.keyMissing "test") ∧
      (F3DataModule.new tp ap tr bs nw cc).predict_dataloader = .error (.keyMissing "predict") ∧
      (setupModule? (F3DataModule.new tp ap tr bs nw cc) (some "fit")).map
          (fun m2 => (dlErr? m2.test_dataloader, dlOk m2.train_dataloader)) =
        some (some (.keyMissing "test"), true) := by
  intro tp ap tr bs nw cc
  exact ⟨rfl, rfl, rfl, rfl, rfl⟩

/-- Claim C8 (confirmed): among the four loader accessors only the train
loader is constructed with `shuffle=True`; val, test and predict loaders
are constructed with `shuffle=False`, and all four pass the module's
configured `batch_size` and `num_workers`. -/
theorem C8_only_train_loader_shuffles :
    ∀ (m : F3DataModule),
      dlArgs? m.train_dataloader =
        (m.datasets "train").map (fun _ => (true, m.batch_size, m.num_workers)) ∧
      dlArgs? m.val_dataloader =
        (m.datasets "val").map (fun _ => (false, m.batch_size, m.num_workers)) ∧
      dlArgs? m.test_dataloader =
        (m.datasets "test").map (fun _ => (false, m.batch_size, m.num_workers)) ∧
      dlArgs? m.predict_dataloader =
        (m.datasets "predict").map (fun _ => (false, m.batch_size, m.num_workers)) := by
  intro m
  refine ⟨?_, ?_, ?_, ?_⟩
  · cases h : m.datasets "train" <;>
      simp [F3DataModule.train_dataloader, dlArgs?, h]
  · cases h : m.datasets "val" <;>
      simp [F3DataModule.val_dataloader, dlArgs?, h]
  · cases h : m.datasets "test" <;>
      simp [F3DataModule.test_dataloader, dlArgs?, h]
  · cases h : m.datasets "predict" <;>
      simp [F3DataModule.predict_dataloader, dlArgs?, h]

end Minerva
